import Mathlib

/-!
Verification of the resolution and dispatch engine of the chora server
(`src/chora/handler.py`), shallowly embedded in Lean 4.

The filesystem and the behaviour of external `HANDLE` programs are modelled
as an explicit environment (`FS`): a predicate for existing directories, one
for existing paths, one for executability, partial maps for text and byte
file contents, and an oracle giving each handler program's exit code and
captured output as a function of the per-request snapshot it can read.

Paths are modelled the way `pathlib` exposes them through `.parts`: a list
of segments, with `"/"` as the first segment of an absolute path.

Python recursion (`get_handler` -> `_dynamic_handler` -> `get_handler`) is
embedded with an explicit fuel argument; running out of fuel is reported by
the dedicated result `HRes.diverge`, so non-termination of the source's
unbounded recursion is observable as exhausting every finite fuel.
-/

namespace Chora

/-! ### Python string primitives (modelled on `List Char` so they reduce) -/

/-- The whitespace characters stripped by Python's `str.strip()`
(restricted to the ASCII ones, which are the only ones that occur here). -/
def isSpace (c : Char) : Bool :=
  c = ' ' || c = '\t' || c = '\n' || c = '\r' || c = '\x0b' || c = '\x0c'

/-- Drop the trailing characters satisfying `p`. -/
def dropTrail (p : Char → Bool) (l : List Char) : List Char :=
  (l.reverse.dropWhile p).reverse

/-- Strip characters satisfying `p` from both ends (Python `str.strip`). -/
def stripWithList (p : Char → Bool) (l : List Char) : List Char :=
  dropTrail p (l.dropWhile p)

/-- Python `s.strip()` (no argument: strip whitespace). -/
def pyStrip (s : String) : String :=
  ⟨stripWithList isSpace s.data⟩

/-- Python `s.strip("/")` as used on the request path. -/
def stripSlashes (s : String) : String :=
  ⟨stripWithList (fun c => c = '/') s.data⟩

/-- Split a character list on a separator character, keeping empty groups,
like Python `str.split` with a one-character separator: `"" ` gives `[[]]`. -/
def splitChar (sep : Char) : List Char → List (List Char)
  | [] => [[]]
  | c :: rest =>
    match splitChar sep rest with
    | [] => [[]]
    | g :: gs => if c = sep then [] :: g :: gs else (c :: g) :: gs

/-- Python `s.split(sep)` for a one-character separator. -/
def pySplit (s : String) (sep : Char) : List String :=
  (splitChar sep s.data).map (fun l => ⟨l⟩)

/-- Split at the first occurrence of `sep`, `none` when `sep` is absent:
Python `sep in s` combined with `s.split(sep, 1)`. -/
def splitOnceChar (sep : Char) : List Char → Option (List Char × List Char)
  | [] => none
  | c :: rest =>
    if c = sep then some ([], rest)
    else (splitOnceChar sep rest).map (fun p => (c :: p.1, p.2))

/-- `splitOnceChar` on strings. -/
def splitOnce (s : String) (sep : Char) : Option (String × String) :=
  (splitOnceChar sep s.data).map (fun p => (⟨p.1⟩, ⟨p.2⟩))

/-- Value of a non-empty all-digit character list, `none` otherwise. -/
def digitsVal (l : List Char) : Option Nat :=
  if l ≠ [] ∧ l.all Char.isDigit then
    some (l.foldl (fun a c => 10 * a + (c.toNat - 48)) 0)
  else none

/-- Python `int(s)` on a base-10 literal: strips whitespace, allows one
leading sign, then requires decimal digits; `none` models `ValueError`. -/
def pyInt (s : String) : Option Int :=
  match (pyStrip s).data with
  | '-' :: rest => (digitsVal rest).map (fun n => -(n : Int))
  | '+' :: rest => (digitsVal rest).map (fun n => (n : Int))
  | l => (digitsVal l).map (fun n => (n : Int))

/-! ### Path model (`pathlib.Path` via `.parts`) -/

/-- A filesystem path as its `pathlib` parts; `"/"` heads absolute paths. -/
abbrev FsPath := List String

/-- The template sentinel segment. -/
def TEMPLATE : String := "__TEMPLATE__"

/-- Whether a path is absolute (`Path.is_absolute`). -/
def isAbs (p : FsPath) : Bool := p.head? = some "/"

/-- Parts of the path denoted by a string, as `pathlib` parses it:
split on `/`, drop empty segments, keep a leading root segment. -/
def strToPath (s : String) : FsPath :=
  let segs := (pySplit s '/').filter (fun t => t ≠ "")
  if s.data.head? = some '/' then "/" :: segs else segs

/-- `pathlib` `/` on already-parsed parts: an absolute right side replaces
the left side. -/
def pathJoin (p q : FsPath) : FsPath := if isAbs q then q else p ++ q

/-- `pathlib` `/` with a string right-hand side (`root_dir / path`). -/
def joinStr (p : FsPath) (s : String) : FsPath := pathJoin p (strToPath s)

/-- `Path.absolute()`: prepend the current working directory when relative
(no normalisation). -/
def absolute (cwd p : FsPath) : FsPath := if isAbs p then p else cwd ++ p

/-- `Path.parent` on parts. -/
def parent (p : FsPath) : FsPath := p.dropLast

/-! ### Environment: filesystem and handler-program oracle -/

/-- Result of `subprocess.run` with captured output. -/
structure ProcResult where
  exitCode : Int
  stdout : String
  stderr : String
deriving DecidableEq

/-- The per-request snapshot `_cache_request` writes into the scratch
directory: the raw request line, the request headers, and the body.  A
`HANDLE` program may read all of it. -/
structure Snapshot where
  request : String
  reqHeaders : List (String × String)
  body : String
deriving DecidableEq

/-- The environment the handler code runs against. `run` is the behaviour
of the executable at a given path, as a function of the snapshot it can
read from the scratch directory; `none` means it cannot be launched. -/
structure FS where
  isDir : FsPath → Bool
  pathExists : FsPath → Bool
  executable : FsPath → Bool
  text : FsPath → Option String
  bin : FsPath → Option (List Nat)
  run : FsPath → Snapshot → Option ProcResult

/-- The Python exceptions the handler code can raise. -/
inductive PyErr where
  /-- `FileNotFoundError` (raised by `get_handler` and by missing reads). -/
  | fileNotFound (path : FsPath)
  /-- `PermissionError` for a non-executable `HANDLE` marker. -/
  | permissionError (path : FsPath)
  /-- `ValueError` from `int()` on a malformed STATUS artifact. -/
  | valueError
  /-- `subprocess.CalledProcessError` from `check=True`. -/
  | calledProcessError (code : Int) (stderr : String)
  /-- `OSError`: the marker exists but cannot be launched. -/
  | osError (path : FsPath)
deriving DecidableEq

/-- The triple a handler returns: status, body bytes, header mapping. -/
structure Response where
  status : Int
  body : List Nat
  headers : List (String × String)
deriving DecidableEq

/-- Outcome of running the handler code: a response, an escaped Python
exception, or exhaustion of the recursion fuel. -/
inductive HRes where
  | ok (r : Response)
  | err (e : PyErr)
  | diverge
deriving DecidableEq

/-! ### Python dict (string keys), as used for the header mapping -/

/-- `d[k] = v` on a Python dict kept as an association list: an existing
key keeps its position and gets the new value, a new key is appended. -/
def dictInsert (m : List (String × String)) (k v : String) :
    List (String × String) :=
  if m.any (fun p => p.1 = k) then
    m.map (fun p => if p.1 = k then (k, v) else p)
  else m ++ [(k, v)]

/-- Python `d.get`-style lookup on the association list. -/
def lookupKey (k : String) : List (String × String) → Option String
  | [] => none
  | x :: rest => if x.1 = k then some x.2 else lookupKey k rest

/-! ### `handler.py`, embedded -/

/-- One line of the loop in `_static_handler` (lines 85-88): if the line
contains a colon, split once on it, strip both sides, assign into the
dict; otherwise leave the dict unchanged. -/
def parseHeaderLine (m : List (String × String)) (line : String) :
    List (String × String) :=
  match splitOnce line ':' with
  | some (k, v) => dictInsert m (pyStrip k) (pyStrip v)
  | none => m

/-- The header-mapping construction of `_static_handler` applied to the
(already stripped) HEADERS text: fold the per-line step over the lines. -/
def parseHeaders (content : String) : List (String × String) :=
  (pySplit content '\n').foldl parseHeaderLine []

/-- The candidate of `_get_directory` (line 35) for loop index `i = j+1`:
`Path(*parts[:i-1], "__TEMPLATE__", *parts[i:])`. -/
def replaceSeg (parts : FsPath) (j : Nat) : FsPath :=
  parts.take j ++ [TEMPLATE] ++ parts.drop (j + 1)

/-- All candidates in the order `_get_directory` tries them:
`i` from `len(parts)` down to `1`, so `j = i-1` from `len(parts)-1` to 0. -/
def candidates (parts : FsPath) : List FsPath :=
  (List.range parts.length).reverse.map (replaceSeg parts)

/-- `_get_directory` (lines 29-38): the literal directory when it is a
directory, otherwise the first existing directory among the template
candidates, otherwise `None`. -/
def getDirectory (fs : FS) (directory : FsPath) : Option FsPath :=
  if fs.isDir directory then some directory
  else (candidates directory).find? (fun c => fs.pathExists c && fs.isDir c)

/-- `_static_handler` (lines 75-89).  Reads are in source order: STATUS is
read and parsed first, then DATA, then HEADERS.  A missing artifact is a
`FileNotFoundError`, a malformed STATUS a `ValueError`. -/
def staticHandler (fs : FS) (directory : FsPath) : HRes :=
  match fs.text (directory ++ ["STATUS"]) with
  | none => .err (.fileNotFound (directory ++ ["STATUS"]))
  | some st =>
    match pyInt (pyStrip st) with
    | none => .err .valueError
    | some code =>
      match fs.bin (directory ++ ["DATA"]) with
      | none => .err (.fileNotFound (directory ++ ["DATA"]))
      | some dat =>
        match fs.text (directory ++ ["HEADERS"]) with
        | none => .err (.fileNotFound (directory ++ ["HEADERS"]))
        | some hc => .ok ⟨code, dat, parseHeaders (pyStrip hc)⟩

/-- `_dynamic_handler` (lines 53-73), with the recursive call back into
`get_handler` passed as `recur`.  The marker must be executable, the
program must launch and exit 0; its stripped stdout names the next
directory, resolved against the handler's parent when relative. -/
def dynamicHandler (fs : FS) (cwd : FsPath) (snap : Snapshot)
    (recur : FsPath → HRes) (directory : FsPath) : HRes :=
  let handler := absolute cwd (directory ++ ["HANDLE"])
  if !fs.executable handler then .err (.permissionError handler)
  else
    match fs.run handler snap with
    | none => .err (.osError handler)
    | some proc =>
      if proc.exitCode ≠ 0 then
        .err (.calledProcessError proc.exitCode proc.stderr)
      else
        let responseDir := strToPath (pyStrip proc.stdout)
        let responseDir :=
          if isAbs responseDir then responseDir else parent handler ++ responseDir
        recur responseDir

/-- `get_handler` (lines 40-51), fuelled.  Resolve the directory; `None`
is a `FileNotFoundError`; a directory holding a `HANDLE` marker goes to
the dynamic handler (which recurses with one unit of fuel less), any
other resolved directory is served statically. -/
def getHandler (fs : FS) (cwd : FsPath) (snap : Snapshot) :
    Nat → FsPath → HRes
  | 0, _ => .diverge
  | fuel + 1, directory =>
    match getDirectory fs directory with
    | none => .err (.fileNotFound directory)
    | some d =>
      if fs.pathExists (d ++ ["HANDLE"]) then
        dynamicHandler fs cwd snap (getHandler fs cwd snap fuel) d
      else staticHandler fs d

/-- The raw request line as `BaseHTTPRequestHandler` records it and
`_cache_request` writes it to the REQUEST artifact. -/
def requestLine (method rawPath : String) : String :=
  method ++ " " ++ rawPath ++ " HTTP/1.1"

/-- The path component of `urlparse(self.path)`: everything before the
first `?` (query) or `#` (fragment). -/
def urlPath (s : String) : String :=
  ⟨s.data.takeWhile (fun c => c ≠ '?' && c ≠ '#')⟩

/-- The Route Target built by `_handle_request` (lines 105-108):
`root_dir / parsed_url.path.strip("/") / method`. -/
def routeTarget (rootDir : FsPath) (method rawPath : String) : FsPath :=
  joinStr (joinStr rootDir (stripSlashes (urlPath rawPath))) method

/-- `_handle_request` (lines 103-124): build the Route Target, write the
request snapshot, obtain and run the handler.  The source has no
exception handling here, so an `HRes.err` is an exception escaping
`_handle_request` — no status line is ever sent for it. -/
def handleRequest (fs : FS) (cwd rootDir : FsPath) (fuel : Nat)
    (method rawPath : String) (reqHeaders : List (String × String))
    (reqBody : String) : HRes :=
  let snap : Snapshot := ⟨requestLine method rawPath, reqHeaders, reqBody⟩
  getHandler fs cwd snap fuel (routeTarget rootDir method rawPath)

/-! ### Spec-side definitions (worded from the spec, for comparison) -/

/-- The header entries the spec reads off the HEADERS text: each line of
the trimmed text that contains a colon, split once on the first colon,
both sides trimmed, in file order. -/
def specHeaderEntries (content : String) : List (String × String) :=
  (pySplit content '\n').filterMap
    (fun line => (splitOnce line ':').map (fun p => (pyStrip p.1, pyStrip p.2)))

/-- Apply a list of header entries to an initially empty mapping in file
order, each by a dict assignment. -/
def applyInOrder (entries : List (String × String)) : List (String × String) :=
  entries.foldl (fun m kv => dictInsert m kv.1 kv.2) []

/-- The value carried by the last entry of the list whose name is `k`. -/
def lastValue (k : String) : List (String × String) → Option String
  | [] => none
  | x :: rest =>
    match lastValue k rest with
    | some v => some v
    | none => if x.1 = k then some x.2 else none

/-! ### Concrete fixtures for witnesses and counterexamples -/

/-- A working directory for `Path.absolute()`. -/
def cwd0 : FsPath := ["/", "cwd"]

/-- The configured root directory of the fixtures. -/
def root0 : FsPath := ["/", "r"]

/-- Requested target of the template-fallback fixture. -/
def dir1 : FsPath := ["/", "r", "users", "123", "GET"]

/-- The template directory that fallback should find for `dir1`. -/
def tdir1 : FsPath := ["/", "r", "users", TEMPLATE, "GET"]

/-- Fallback fixture: templates at segment 3 and at segment 2 both exist,
the literal target does not. -/
def fs1 : FS where
  isDir := fun p => p == tdir1 || p == ["/", "r", TEMPLATE, "123", "GET"]
  pathExists := fun p => p == tdir1 || p == ["/", "r", TEMPLATE, "123", "GET"]
  executable := fun _ => false
  text := fun _ => none
  bin := fun _ => none
  run := fun _ _ => none

/-- Static route directory of the well-formed static fixture. -/
def dir2 : FsPath := ["/", "r", "test", "GET"]

/-- Well-formed static route: STATUS `200`, two body bytes, a HEADERS
file with one colon-bearing and one colon-free line. -/
def fs2 : FS where
  isDir := fun p => p == dir2
  pathExists := fun p => p == dir2
  executable := fun _ => false
  text := fun p =>
    if p == dir2 ++ ["STATUS"] then some "200"
    else if p == dir2 ++ ["HEADERS"] then some "Content-Type: text/html\nGarbage"
    else none
  bin := fun p => if p == dir2 ++ ["DATA"] then some [104, 105] else none
  run := fun _ _ => none

/-- Route directory that exists but lacks its STATUS artifact. -/
def dir3 : FsPath := ["/", "r", "incomplete", "GET"]

/-- Fixture for a static directory missing STATUS (DATA and HEADERS are
present, no HANDLE marker). -/
def fs3 : FS where
  isDir := fun p => p == dir3
  pathExists := fun p => p == dir3
  executable := fun _ => false
  text := fun p =>
    if p == dir3 ++ ["HEADERS"] then some "Content-Type: text/plain" else none
  bin := fun p => if p == dir3 ++ ["DATA"] then some [116] else none
  run := fun _ _ => none

/-- Route directory holding a non-executable HANDLE marker. -/
def dir4 : FsPath := ["/", "r", "locked", "GET"]

/-- Fixture for a present but non-executable HANDLE marker. -/
def fs4 : FS where
  isDir := fun p => p == dir4
  pathExists := fun p => p == dir4 || p == dir4 ++ ["HANDLE"]
  executable := fun _ => false
  text := fun _ => none
  bin := fun _ => none
  run := fun _ _ => none

/-- Route directory whose STATUS artifact is not numeric. -/
def dir5 : FsPath := ["/", "r", "malformed", "GET"]

/-- Fixture for a malformed STATUS artifact (`not_a_number`), with DATA
and HEADERS present and no HANDLE marker. -/
def fs5 : FS where
  isDir := fun p => p == dir5
  pathExists := fun p => p == dir5
  executable := fun _ => false
  text := fun p =>
    if p == dir5 ++ ["STATUS"] then some "not_a_number"
    else if p == dir5 ++ ["HEADERS"] then some "Content-Type: text/plain"
    else none
  bin := fun p => if p == dir5 ++ ["DATA"] then some [116] else none
  run := fun _ _ => none

/-- Route directory whose handler program exits nonzero. -/
def dir6a : FsPath := ["/", "r", "boom", "GET"]

/-- Route directory whose handler exits zero but emits a dangling path. -/
def dir6b : FsPath := ["/", "r", "ghost", "GET"]

/-- Fixture with two executable handlers: one failing with exit code 1,
one succeeding but printing a path that resolves nowhere. -/
def fs6 : FS where
  isDir := fun p => p == dir6a || p == dir6b
  pathExists := fun p =>
    p == dir6a || p == dir6b || p == dir6a ++ ["HANDLE"] || p == dir6b ++ ["HANDLE"]
  executable := fun p => p == dir6a ++ ["HANDLE"] || p == dir6b ++ ["HANDLE"]
  text := fun _ => none
  bin := fun _ => none
  run := fun p _ =>
    if p == dir6a ++ ["HANDLE"] then some ⟨1, "", "Script failed"⟩
    else if p == dir6b ++ ["HANDLE"] then
      some ⟨0, "/this/path/does/not/exist\n", ""⟩
    else none

/-- Route directory of the dynamic-dispatch fixture. -/
def dir7 : FsPath := ["/", "r", "dyn", "GET"]

/-- What the handler of `dir7` does: exit 0 and print a relative path. -/
def proc7 : ProcResult := ⟨0, "next\n", ""⟩

/-- A snapshot for invoking the `dir7` fixture directly. -/
def snap7 : Snapshot := ⟨requestLine "GET" "/dyn", [], ""⟩

/-- Dynamic fixture: `dir7` holds an executable HANDLE *and* all three
static artifacts; the handler's relative output `next` names a static
subdirectory of `dir7` itself. -/
def fs7 : FS where
  isDir := fun p => p == dir7 || p == dir7 ++ ["next"]
  pathExists := fun p =>
    p == dir7 || p == dir7 ++ ["next"] || p == dir7 ++ ["HANDLE"]
  executable := fun p => p == dir7 ++ ["HANDLE"]
  text := fun p =>
    if p == dir7 ++ ["STATUS"] then some "203"
    else if p == dir7 ++ ["HEADERS"] then some "X: shadowed"
    else if p == dir7 ++ ["next", "STATUS"] then some "200"
    else if p == dir7 ++ ["next", "HEADERS"] then some "X: y"
    else none
  bin := fun p =>
    if p == dir7 ++ ["DATA"] then some [110]
    else if p == dir7 ++ ["next", "DATA"] then some [111, 107]
    else none
  run := fun p _ => if p == dir7 ++ ["HANDLE"] then some proc7 else none

/-- Route directory of the self-referential handler chain. -/
def dirLoop : FsPath := ["/", "r", "loop", "GET"]

/-- The looping handler: exit 0, print the absolute path of its own
route directory. -/
def procLoop : ProcResult := ⟨0, "/r/loop/GET", ""⟩

/-- The snapshot `_handle_request` writes for `GET /loop`. -/
def snapLoop : Snapshot := ⟨requestLine "GET" "/loop", [], ""⟩

/-- Fixture whose executable handler points dispatch back at its own
directory. -/
def fsLoop : FS where
  isDir := fun p => p == dirLoop
  pathExists := fun p => p == dirLoop || p == dirLoop ++ ["HANDLE"]
  executable := fun p => p == dirLoop ++ ["HANDLE"]
  text := fun _ => none
  bin := fun _ => none
  run := fun p _ => if p == dirLoop ++ ["HANDLE"] then some procLoop else none

/-- Route directory of the query-sensitive dynamic fixture. -/
def dirQ : FsPath := ["/", "r", "a", "b", "GET"]

/-- Fixture whose handler reads the REQUEST snapshot artifact and picks a
different response directory when the request line carries a query. -/
def fsQ : FS where
  isDir := fun p => p == dirQ || p == dirQ ++ ["q"] || p == dirQ ++ ["noq"]
  pathExists := fun p =>
    p == dirQ || p == dirQ ++ ["q"] || p == dirQ ++ ["noq"] ||
      p == dirQ ++ ["HANDLE"]
  executable := fun p => p == dirQ ++ ["HANDLE"]
  text := fun p =>
    if p == dirQ ++ ["q", "STATUS"] then some "200"
    else if p == dirQ ++ ["q", "HEADERS"] then some ""
    else if p == dirQ ++ ["noq", "STATUS"] then some "200"
    else if p == dirQ ++ ["noq", "HEADERS"] then some ""
    else none
  bin := fun p =>
    if p == dirQ ++ ["q", "DATA"] then some [49]
    else if p == dirQ ++ ["noq", "DATA"] then some [50]
    else none
  run := fun p snap =>
    if p == dirQ ++ ["HANDLE"] then
      some ⟨0, if '?' ∈ snap.request.data then "q" else "noq", ""⟩
    else none

/-- Static route directory of the query-insensitive witness fixture. -/
def dirW : FsPath := ["/", "r", "w", "GET"]

/-- Plain static fixture used to witness query-string irrelevance. -/
def fsW : FS where
  isDir := fun p => p == dirW
  pathExists := fun p => p == dirW
  executable := fun _ => false
  text := fun p =>
    if p == dirW ++ ["STATUS"] then some "200"
    else if p == dirW ++ ["HEADERS"] then some "" else none
  bin := fun p => if p == dirW ++ ["DATA"] then some [119] else none
  run := fun _ _ => none

/-! ### Helper lemmas -/

/-- `find?` over a descending index scan, success case: the hit is the
largest index that satisfies the test. -/
theorem find_rev_range_some {α : Type} (f : Nat → α) (p : α → Bool) :
    ∀ n c, ((List.range n).reverse.map f).find? p = some c →
      ∃ j, j < n ∧ c = f j ∧ p (f j) = true ∧
        ∀ k, j < k → k < n → p (f k) = false := by
  intro n
  induction n with
  | zero => intro c h; simp [List.range_zero] at h
  | succ m ih =>
    intro c h
    rw [List.range_succ, List.reverse_append] at h
    simp only [List.reverse_cons, List.reverse_nil, List.nil_append,
      List.singleton_append, List.map_cons] at h
    cases hm : p (f m) with
    | true =>
      rw [List.find?_cons_of_pos _ hm] at h
      injection h with h'
      exact ⟨m, Nat.lt_succ_self m, h'.symm, hm,
        fun k hk1 hk2 => absurd hk2 (by omega)⟩
    | false =>
      rw [List.find?_cons_of_neg _ (by simp [hm])] at h
      obtain ⟨j, hj, hc, hp, hall⟩ := ih c h
      refine ⟨j, by omega, hc, hp, ?_⟩
      intro k hk1 hk2
      rcases Nat.lt_succ_iff_lt_or_eq.mp hk2 with h' | h'
      · exact hall k hk1 h'
      · rw [h']; exact hm

/-- `find?` over a descending index scan, failure case: every index
fails the test. -/
theorem find_rev_range_none {α : Type} (f : Nat → α) (p : α → Bool)
    (n : Nat) (h : ((List.range n).reverse.map f).find? p = none) :
    ∀ j, j < n → p (f j) = false := by
  intro j hj
  rw [List.find?_eq_none] at h
  have hmem : f j ∈ (List.range n).reverse.map f :=
    List.mem_map_of_mem f (by simp [List.mem_reverse, List.mem_range, hj])
  have := h (f j) hmem
  simpa using this

/-- Updating an absent-from-`k` key does not change `lookupKey k`. -/
theorem lookupKey_map_ne {a k : String} (b : String)
    (m : List (String × String)) (hk : a ≠ k) :
    lookupKey k (m.map (fun p => if p.1 = a then (a, b) else p)) =
      lookupKey k m := by
  induction m with
  | nil => rfl
  | cons x t ih =>
    by_cases hx : x.1 = a
    · simp only [List.map_cons, if_pos hx, lookupKey]
      rw [if_neg hk, if_neg (by rw [hx]; exact hk)]
      exact ih
    · simp only [List.map_cons, if_neg hx, lookupKey]
      by_cases hxk : x.1 = k
      · rw [if_pos hxk, if_pos hxk]
      · rw [if_neg hxk, if_neg hxk]; exact ih

/-- After the in-place update of key `a`, looking `a` up finds the new
value, provided some entry with key `a` was present. -/
theorem lookupKey_map_self (a b : String) (m : List (String × String))
    (h : m.any (fun p => p.1 = a) = true) :
    lookupKey a (m.map (fun p => if p.1 = a then (a, b) else p)) = some b := by
  induction m with
  | nil => simp at h
  | cons x t ih =>
    by_cases hx : x.1 = a
    · simp [List.map_cons, if_pos hx, lookupKey]
    · simp only [List.any_cons, Bool.or_eq_true, decide_eq_true_eq] at h
      rcases h with h | h
      · exact absurd h hx
      · simp only [List.map_cons, if_neg hx, lookupKey, if_neg hx]
        exact ih (by simpa using h)

/-- `lookupKey` over an append scans the left list first. -/
theorem lookupKey_append (k : String) (m l : List (String × String)) :
    lookupKey k (m ++ l) =
      match lookupKey k m with
      | some v => some v
      | none => lookupKey k l := by
  induction m with
  | nil => rfl
  | cons x t ih =>
    simp only [List.cons_append, lookupKey]
    by_cases hx : x.1 = k
    · rw [if_pos hx, if_pos hx]
    · rw [if_neg hx, if_neg hx]; exact ih

/-- When no entry has key `a`, `lookupKey a` fails. -/
theorem lookupKey_eq_none (a : String) (m : List (String × String))
    (h : m.any (fun p => p.1 = a) = false) : lookupKey a m = none := by
  induction m with
  | nil => rfl
  | cons x t ih =>
    simp only [List.any_cons, Bool.or_eq_false_iff, decide_eq_false_iff_not] at h
    simp only [lookupKey, if_neg h.1]
    exact ih (by simpa using h.2)

/-- The dict assignment `m[a] = b` seen through `lookupKey`. -/
theorem lookupKey_dictInsert (m : List (String × String)) (a b k : String) :
    lookupKey k (dictInsert m a b) = if a = k then some b else lookupKey k m := by
  unfold dictInsert
  by_cases hany : m.any (fun p => p.1 = a) = true
  · rw [if_pos hany]
    by_cases hk : a = k
    · rw [if_pos hk, ← hk, lookupKey_map_self a b m hany]
    · rw [if_neg hk, lookupKey_map_ne b m hk]
  · rw [if_neg hany, lookupKey_append]
    have h0 : lookupKey k m = none ∨ a ≠ k := by
      by_cases hk : a = k
      · exact Or.inl (hk ▸ lookupKey_eq_none a m (by
          simpa only [Bool.not_eq_true] using hany))
      · exact Or.inr hk
    by_cases hk : a = k
    · rcases h0 with h0 | h0
      · rw [h0, if_pos hk]; simp [lookupKey, hk]
      · exact absurd hk h0
    · rw [if_neg hk]
      cases hm : lookupKey k m with
      | some v => rfl
      | none => simp [lookupKey, hk]

/-- Folding dict assignments: the final value of key `k` is the value of
the last entry named `k`, else whatever the start mapping had. -/
theorem lookupKey_foldl_dictInsert (k : String) :
    ∀ (l m : List (String × String)),
      lookupKey k (l.foldl (fun m kv => dictInsert m kv.1 kv.2) m) =
        match lastValue k l with
        | some v => some v
        | none => lookupKey k m := by
  intro l
  induction l with
  | nil => intro m; rfl
  | cons x t ih =>
    intro m
    simp only [List.foldl_cons, lastValue]
    rw [ih]
    cases lastValue k t with
    | some v => rfl
    | none =>
      simp only [lookupKey_dictInsert]
      by_cases hx : x.1 = k
      · rw [if_pos hx, if_pos hx]
      · rw [if_neg hx, if_neg hx]

/-- The keys after a dict assignment: unchanged when the key was present,
the key appended when it was new. -/
theorem map_fst_dictInsert (m : List (String × String)) (a b : String) :
    (dictInsert m a b).map Prod.fst =
      if m.any (fun p => p.1 = a) = true then m.map Prod.fst
      else m.map Prod.fst ++ [a] := by
  unfold dictInsert
  by_cases h : m.any (fun p => p.1 = a) = true
  · rw [if_pos h, if_pos h, List.map_map]
    apply List.map_congr_left
    intro x _
    by_cases hx : x.1 = a
    · simp [hx]
    · simp [hx]
  · rw [if_neg h, if_neg h, List.map_append]; rfl

/-- A key that no entry carries is not among the mapped keys. -/
theorem not_mem_map_fst (m : List (String × String)) (a : String)
    (h : m.any (fun p => p.1 = a) = false) : a ∉ m.map Prod.fst := by
  intro hmem
  rcases List.mem_map.mp hmem with ⟨x, hx, hfst⟩
  rw [List.any_eq_false] at h
  have hne := h x hx
  simp only [decide_eq_true_eq] at hne
  exact hne hfst

/-- Dict assignment preserves distinctness of the keys. -/
theorem nodup_map_fst_dictInsert (m : List (String × String)) (a b : String)
    (h : (m.map Prod.fst).Nodup) : ((dictInsert m a b).map Prod.fst).Nodup := by
  rw [map_fst_dictInsert]
  by_cases hany : m.any (fun p => p.1 = a) = true
  · rw [if_pos hany]; exact h
  · rw [if_neg hany]
    have ha : a ∉ m.map Prod.fst := not_mem_map_fst m a (by
      simpa only [Bool.not_eq_true] using hany)
    simp [List.nodup_append, h, ha]

/-- Folding dict assignments preserves distinctness of the keys. -/
theorem nodup_map_fst_foldl :
    ∀ (l m : List (String × String)), (m.map Prod.fst).Nodup →
      ((l.foldl (fun m kv => dictInsert m kv.1 kv.2) m).map Prod.fst).Nodup := by
  intro l
  induction l with
  | nil => intro m h; exact h
  | cons x t ih => intro m h; exact ih _ (nodup_map_fst_dictInsert _ _ _ h)

/-- The header loop of `_static_handler` is the fold of dict assignments
over the colon-bearing lines (colon-free lines dropped). -/
theorem foldl_parseHeaderLine :
    ∀ (lines : List String) (m : List (String × String)),
      lines.foldl parseHeaderLine m =
        (lines.filterMap (fun line =>
            (splitOnce line ':').map (fun p => (pyStrip p.1, pyStrip p.2)))).foldl
          (fun m kv => dictInsert m kv.1 kv.2) m := by
  intro lines
  induction lines with
  | nil => intro m; rfl
  | cons line rest ih =>
    intro m
    simp only [List.foldl_cons, List.filterMap_cons]
    cases hsp : splitOnce line ':' with
    | none =>
      simp only [Option.map_none']
      rw [show parseHeaderLine m line = m by unfold parseHeaderLine; rw [hsp]]
      exact ih m
    | some kv =>
      obtain ⟨k0, v0⟩ := kv
      simp only [Option.map_some']
      rw [show parseHeaderLine m line = dictInsert m (pyStrip k0) (pyStrip v0) by
        unfold parseHeaderLine; rw [hsp]]
      rw [List.foldl_cons]
      exact ih _

/-- `parseHeaders` produces exactly the in-order application of the
colon-bearing entries. -/
theorem parseHeaders_eq (content : String) :
    parseHeaders content = applyInOrder (specHeaderEntries content) :=
  foldl_parseHeaderLine _ []

/-- `takeWhile` keeps a list all of whose elements pass the test. -/
theorem takeWhile_all {α : Type} (P : α → Bool) :
    ∀ l : List α, (∀ c ∈ l, P c = true) → l.takeWhile P = l := by
  intro l
  induction l with
  | nil => intro _; rfl
  | cons a t ih =>
    intro h
    have ht := ih (fun c hc => h c (by simp [hc]))
    simp [List.takeWhile_cons, h a (by simp), ht]

/-- `takeWhile` stops exactly at the first failing element. -/
theorem takeWhile_append_cons {α : Type} (P : α → Bool) :
    ∀ (l1 : List α) (x : α) (l2 : List α),
      (∀ c ∈ l1, P c = true) → P x = false →
      (l1 ++ x :: l2).takeWhile P = l1 := by
  intro l1
  induction l1 with
  | nil => intro x l2 _ hx; simp [List.takeWhile_cons, hx]
  | cons a t ih =>
    intro x l2 h hx
    have ht := ih x l2 (fun c hc => h c (by simp [hc])) hx
    simp [List.cons_append, List.takeWhile_cons, h a (by simp), ht]

/-- One unfolding of `get_handler` through `_dynamic_handler` when the
resolved directory carries an executable `HANDLE` whose program exits 0:
dispatch recurses on the emitted path, resolved against the handler's
own parent directory when relative. -/
theorem getHandler_step_dynamic (fs : FS) (cwd : FsPath) (snap : Snapshot)
    (fuel : Nat) (dir d : FsPath) (proc : ProcResult)
    (hres : getDirectory fs dir = some d)
    (hH : fs.pathExists (d ++ ["HANDLE"]) = true)
    (hx : fs.executable (absolute cwd (d ++ ["HANDLE"])) = true)
    (hrun : fs.run (absolute cwd (d ++ ["HANDLE"])) snap = some proc)
    (hexit : proc.exitCode = 0) :
    getHandler fs cwd snap (fuel + 1) dir =
      getHandler fs cwd snap fuel
        (pathJoin (parent (absolute cwd (d ++ ["HANDLE"])))
          (strToPath (pyStrip proc.stdout))) := by
  simp only [getHandler, hres, hH, if_true]
  unfold dynamicHandler
  simp only [hx, Bool.not_true, Bool.false_eq_true, if_false, hrun, hexit]
  simp [pathJoin]

/-! ### Claim theorems -/

/-- C1: resolution returns the literal target immediately when it is a
directory; otherwise it returns the first candidate — obtained by
replacing exactly one segment of the target with `__TEMPLATE__`, scanned
from the last segment toward the first (so the found index is maximal
and every later position already failed) — that exists as a directory,
and yields no directory only after every position has failed. -/
theorem c1_template_resolution (fs : FS) (d : FsPath) :
    (fs.isDir d = true → getDirectory fs d = some d) ∧
    (fs.isDir d = false → ∀ c, getDirectory fs d = some c →
      ∃ j, j < d.length ∧ c = replaceSeg d j ∧
        (fs.pathExists c && fs.isDir c) = true ∧
        ∀ k, j < k → k < d.length →
          (fs.pathExists (replaceSeg d k) && fs.isDir (replaceSeg d k)) = false) ∧
    (fs.isDir d = false → getDirectory fs d = none →
      ∀ j, j < d.length →
        (fs.pathExists (replaceSeg d j) && fs.isDir (replaceSeg d j)) = false) := by
  refine ⟨?_, ?_, ?_⟩
  · intro h
    unfold getDirectory
    rw [if_pos h]
  · intro h c hc
    unfold getDirectory at hc
    rw [if_neg (by simp [h])] at hc
    unfold candidates at hc
    obtain ⟨j, hj, hcj, hp, hall⟩ :=
      find_rev_range_some (replaceSeg d) _ d.length c hc
    refine ⟨j, hj, hcj, ?_, hall⟩
    rw [hcj]
    exact hp
  · intro h hn j hj
    unfold getDirectory at hn
    rw [if_neg (by simp [h])] at hn
    unfold candidates at hn
    exact find_rev_range_none (replaceSeg d) _ d.length hn j hj

/-- C1 witness: `users/123/GET` does not exist; resolution finds the
template at the user-id segment, and every later position fails. -/
theorem c1_template_resolution_witness :
    fs1.isDir dir1 = false ∧
    ∃ j, j < dir1.length ∧ tdir1 = replaceSeg dir1 j ∧
      (fs1.pathExists tdir1 && fs1.isDir tdir1) = true ∧
      ∀ k, j < k → k < dir1.length →
        (fs1.pathExists (replaceSeg dir1 k) && fs1.isDir (replaceSeg dir1 k)) = false :=
  ⟨by decide, (c1_template_resolution fs1 dir1).2.1 (by decide) tdir1 (by decide)⟩

/-- C2: on a static directory with all three artifacts present and a
well-formed STATUS, the handler returns exactly the parsed status, the
raw DATA bytes, and the mapping obtained by applying, in file order, the
entries of the colon-bearing lines of the trimmed HEADERS text
(colon-free lines skipped, never an error). -/
theorem c2_static_response (fs : FS) (d : FsPath) (st hc : String)
    (n : Int) (b : List Nat)
    (h1 : fs.text (d ++ ["STATUS"]) = some st)
    (h2 : pyInt (pyStrip st) = some n)
    (h3 : fs.bin (d ++ ["DATA"]) = some b)
    (h4 : fs.text (d ++ ["HEADERS"]) = some hc) :
    staticHandler fs d =
      .ok ⟨n, b, applyInOrder (specHeaderEntries (pyStrip hc))⟩ := by
  simp only [staticHandler, h1, h2, h3, h4, parseHeaders_eq]

/-- C2 witness: a concrete static route whose HEADERS file carries one
colon-bearing line and one colon-free line. -/
theorem c2_static_response_witness :
    pyInt (pyStrip "200") = some 200 ∧
    staticHandler fs2 dir2 =
      .ok ⟨200, [104, 105],
        applyInOrder (specHeaderEntries (pyStrip "Content-Type: text/html\nGarbage"))⟩ :=
  ⟨by decide,
    c2_static_response fs2 dir2 "200" "Content-Type: text/html\nGarbage" 200
      [104, 105] rfl (by decide) rfl rfl⟩

/-- C3 (code bug): on a resolved directory missing its STATUS artifact
(no HANDLE marker), `_handle_request` does not produce a 404 response:
the `FileNotFoundError` escapes it uncaught, matching none of the
claim's promised HTTP outcomes. -/
theorem c3_missing_artifact_escapes :
    handleRequest fs3 cwd0 root0 5 "GET" "/incomplete" [] "" =
      .err (.fileNotFound (dir3 ++ ["STATUS"])) := by decide

/-- C4 (code bug): a present but non-executable HANDLE marker raises
`PermissionError` — an exception kind distinct from not-found — but
`_handle_request` lets it escape instead of answering 403. -/
theorem c4_nonexecutable_marker_escapes :
    handleRequest fs4 cwd0 root0 5 "GET" "/locked" [] "" =
      .err (.permissionError (dir4 ++ ["HANDLE"])) := by decide

/-- C5 (code bug): a STATUS artifact holding `not_a_number` raises
`ValueError` from `int()`, and `_handle_request` lets it escape instead
of answering 500. -/
theorem c5_malformed_status_escapes :
    handleRequest fs5 cwd0 root0 5 "GET" "/malformed" [] "" =
      .err .valueError := by decide

/-- C6 (code bug): a handler exiting nonzero raises
`CalledProcessError`, and a zero-exit handler emitting a dangling path
raises `FileNotFoundError`; `_handle_request` lets both escape instead
of answering 500 resp. 404. -/
theorem c6_handler_failure_escapes :
    handleRequest fs6 cwd0 root0 5 "GET" "/boom" [] "" =
      .err (.calledProcessError 1 "Script failed") ∧
    handleRequest fs6 cwd0 root0 5 "GET" "/ghost" [] "" =
      .err (.fileNotFound ["/", "this", "path", "does", "not", "exist"]) := by
  exact ⟨by decide, by decide⟩

/-- C7: whenever the resolved directory carries a `HANDLE` marker —
regardless of any static artifacts beside it — dispatch is dynamic: the
program's stripped stdout names the next directory, resolved against
the directory containing the program when relative, and `get_handler`
recurses on it, so handler chains are followed transitively. -/
theorem c7_dynamic_dispatch (fs : FS) (cwd : FsPath) (snap : Snapshot)
    (fuel : Nat) (dir d : FsPath) (proc : ProcResult)
    (hres : getDirectory fs dir = some d)
    (hH : fs.pathExists (d ++ ["HANDLE"]) = true)
    (hx : fs.executable (absolute cwd (d ++ ["HANDLE"])) = true)
    (hrun : fs.run (absolute cwd (d ++ ["HANDLE"])) snap = some proc)
    (hexit : proc.exitCode = 0) :
    getHandler fs cwd snap (fuel + 1) dir =
      getHandler fs cwd snap fuel
        (pathJoin (parent (absolute cwd (d ++ ["HANDLE"])))
          (strToPath (pyStrip proc.stdout))) :=
  getHandler_step_dynamic fs cwd snap fuel dir d proc hres hH hx hrun hexit

/-- C7 witness: a directory holding both an executable HANDLE and full
static artifacts dispatches dynamically on the handler's relative
output. -/
theorem c7_dynamic_dispatch_witness :
    fs7.text (dir7 ++ ["STATUS"]) = some "203" ∧
    getHandler fs7 cwd0 snap7 3 dir7 =
      getHandler fs7 cwd0 snap7 2
        (pathJoin (parent (absolute cwd0 (dir7 ++ ["HANDLE"])))
          (strToPath (pyStrip proc7.stdout))) :=
  ⟨by decide,
    c7_dynamic_dispatch fs7 cwd0 snap7 2 dir7 dir7 proc7 (by decide) (by decide)
      (by decide) (by decide) rfl⟩

/-- C8 counterexample: with HEADERS text `A: 1\nA: 2` both lines are
colon-bearing, yet the entry of the earlier line is lost from the final
mapping — the dict assignment overwrote it — refuting the claim that
every colon-bearing line's entry is preserved. -/
theorem c8_counterexample :
    specHeaderEntries "A: 1\nA: 2" = [("A", "1"), ("A", "2")] ∧
    ("A", "1") ∉ parseHeaders "A: 1\nA: 2" ∧
    parseHeaders "A: 1\nA: 2" = [("A", "2")] := by decide

/-- C8 (amended): duplicate names collapse to a single entry — the keys
of the final mapping are distinct, and the value recorded for a name is
that of the last colon-bearing line carrying it (last-write-wins),
entries still being applied in file order. -/
theorem c8_last_write_wins (content : String) (k : String) :
    ((parseHeaders content).map Prod.fst).Nodup ∧
    lookupKey k (parseHeaders content) =
      lastValue k (specHeaderEntries content) := by
  constructor
  · rw [parseHeaders_eq]
    exact nodup_map_fst_foldl _ [] (by simp)
  · rw [parseHeaders_eq]
    unfold applyInOrder
    rw [lookupKey_foldl_dictInsert]
    cases lastValue k (specHeaderEntries content) with
    | some v => rfl
    | none => rfl

/-- C9 (code bug): a handler chain that points back at its own directory
never completes — for every recursion depth, dispatch of `GET /loop`
exhausts it without producing a response, so the source's unbounded
recursion does not terminate (CPython aborts the request with
`RecursionError` at its interpreter stack limit). -/
theorem c9_loop_never_completes :
    ∀ fuel : Nat,
      handleRequest fsLoop cwd0 root0 fuel "GET" "/loop" [] "" = .diverge := by
  have key : ∀ fuel : Nat,
      getHandler fsLoop cwd0 snapLoop fuel dirLoop = .diverge := by
    intro fuel
    induction fuel with
    | zero => rfl
    | succ n ih =>
      have hstep := getHandler_step_dynamic fsLoop cwd0 snapLoop n dirLoop dirLoop
        procLoop (by decide) (by decide) (by decide) (by decide) rfl
      rw [hstep,
        show pathJoin (parent (absolute cwd0 (dirLoop ++ ["HANDLE"])))
            (strToPath (pyStrip procLoop.stdout)) = dirLoop from by decide]
      exact ih
  intro fuel
  show getHandler fsLoop cwd0 snapLoop fuel (routeTarget root0 "GET" "/loop") = .diverge
  rw [show routeTarget root0 "GET" "/loop" = dirLoop from by decide]
  exact key fuel

/-- C10 counterexample: two requests differing only in their query
string resolve to the same route directory, but its dynamic handler
reads the request line from the snapshot and answers differently, so
they do not receive the same response. -/
theorem c10_counterexample :
    routeTarget root0 "GET" "/a/b?x=1" = routeTarget root0 "GET" "/a/b" ∧
    handleRequest fsQ cwd0 root0 5 "GET" "/a/b?x=1" [] "" ≠
      handleRequest fsQ cwd0 root0 5 "GET" "/a/b" [] "" := by
  exact ⟨by decide, by decide⟩

/-- C10 (amended): only the path component builds the Route Target — a
query string is discarded, so the two requests resolve to the same
route directory — and when the resolved directory is static (no HANDLE
marker) they also receive the same response; a dynamic handler may
still observe the query through the request snapshot. -/
theorem c10_query_ignored (fs : FS) (cwd rootDir : FsPath) (fuel : Nat)
    (method p q : String) (hdrs : List (String × String)) (body : String)
    (d : FsPath)
    (hq : ∀ c ∈ p.data, (c ≠ '?' && c ≠ '#') = true)
    (hres : getDirectory fs (routeTarget rootDir method p) = some d)
    (hst : fs.pathExists (d ++ ["HANDLE"]) = false) :
    routeTarget rootDir method (p ++ "?" ++ q) = routeTarget rootDir method p ∧
    handleRequest fs cwd rootDir fuel method (p ++ "?" ++ q) hdrs body =
      handleRequest fs cwd rootDir fuel method p hdrs body := by
  have hdata : (p ++ "?" ++ q).data = p.data ++ '?' :: q.data := by
    simp [String.data_append]
  have hurl : urlPath (p ++ "?" ++ q) = urlPath p := by
    unfold urlPath
    rw [hdata, takeWhile_append_cons _ p.data '?' q.data hq (by decide),
      takeWhile_all _ p.data hq]
  have hroute : routeTarget rootDir method (p ++ "?" ++ q) =
      routeTarget rootDir method p := by
    unfold routeTarget
    rw [hurl]
  refine ⟨hroute, ?_⟩
  unfold handleRequest
  rw [hroute]
  cases fuel with
  | zero => rfl
  | succ n => simp [getHandler, hres, hst]

/-- C10 witness: adding a query string to a request for a concrete
static route changes neither the Route Target nor the response. -/
theorem c10_query_ignored_witness :
    routeTarget root0 "GET" ("/w" ++ "?" ++ "x=1") = routeTarget root0 "GET" "/w" ∧
    handleRequest fsW cwd0 root0 3 "GET" ("/w" ++ "?" ++ "x=1") [] "" =
      handleRequest fsW cwd0 root0 3 "GET" "/w" [] "" :=
  c10_query_ignored fsW cwd0 root0 3 "GET" "/w" "x=1" [] "" dirW
    (by decide) (by decide) (by decide)

end Chora
